import Mathlib

/-!
Verification development for the appenz/camera-app repository.

The embedding mirrors the notification decision logic of `callback` in
`src/main.py` (lines 295-353), the helper `is_person_event` (main.py 72-74),
the comparator `compare_description` (`src/images.py` 161-194), the delivery
function `send_notification` (`src/pushover.py`), and the heartbeat store and
websocket watchdog (`src/watchdog.py`).

Timestamps are modelled as integers counting seconds; Python `timedelta`
windows become the integer constants 60 (one minute), 10 (ten seconds) and
600 (ten minutes).  Python string operations (`strip`, `split`, `upper`,
`startswith`, `in`) are re-implemented over `List Char` with the semantics
Python gives them on ASCII text, so that every definition is executable and
kernel-reducible.
-/

set_option maxRecDepth 4000

/-- Timestamps in seconds (differences of Python `datetime` values). -/
abbrev Timestamp := Int

/-- Drop leading whitespace characters, as Python `str.lstrip()`. -/
def dropLeadingWs : List Char → List Char
  | [] => []
  | c :: cs => if c.isWhitespace then dropLeadingWs cs else c :: cs

/-- Strip whitespace from both ends of a character list, as Python `str.strip()`. -/
def stripChars (cs : List Char) : List Char :=
  (dropLeadingWs ((dropLeadingWs cs).reverse)).reverse

/-- Python `str.strip()`. -/
def pyStrip (s : String) : String := String.mk (stripChars s.data)

/-- Split on newline characters keeping empty pieces, as Python `str.split('\n')`.
The first argument accumulates the current piece in reverse. -/
def splitLinesAux : List Char → List Char → List (List Char)
  | acc, [] => [acc.reverse]
  | acc, c :: cs =>
    if c = '\n' then acc.reverse :: splitLinesAux [] cs else splitLinesAux (c :: acc) cs

/-- The lines of `analysis.strip().split('\n')` from the source. -/
def pyLines (s : String) : List String :=
  (splitLinesAux [] (pyStrip s).data).map String.mk

/-- Python `str.upper()` (ASCII, which is all the source compares). -/
def pyUpper (s : String) : String := String.mk (s.data.map Char.toUpper)

/-- Python `s.startswith(p)`. -/
def pyStartsWith (s p : String) : Bool := p.data.isPrefixOf s.data

/-- `first_line = lines[0].strip()` from the source. -/
def firstLineOf (analysis : String) : String :=
  pyStrip ((pyLines analysis).headD (String.mk []))

/-- `message = lines[1] if len(lines) > 1 else ""` from the source. -/
def messageOf (analysis : String) : String :=
  match pyLines analysis with
  | _ :: m :: _ => m
  | _ => String.mk []

/-- `is_person_event` from main.py lines 72-74. -/
def is_person_event (first_line : String) : Bool :=
  pyStartsWith (pyUpper first_line) ("ALARM PERSON")
    || pyStartsWith (pyUpper first_line) ("OBSERVATION PERSON")

/-- Python `pat in s` substring test. -/
def containsSub (pat : List Char) : List Char → Bool
  | [] => pat.isEmpty
  | c :: cs => pat.isPrefixOf (c :: cs) || containsSub pat cs

/-- `compare_description` from images.py lines 161-194.  The two descriptions
are interpolated into the prompt sent to the OpenAI collaborator; the
collaborator call is modelled by `apiResponse`: `Except.error` is any raised
exception (caught, yielding `False`), `Except.ok content` is the returned
message content, on which the source tests `"SAME" in content.strip().upper()`. -/
def compare_description (desc_a desc_b : String) (apiResponse : Except Unit String) : Bool :=
  match apiResponse with
  | Except.error _ => false
  | Except.ok content => containsSub ("SAME").data (pyUpper (pyStrip content)).data

/-- One entry of `last_person_notification_by_camera` (main.py line 353):
`{"description": message, "timestamp": current_time}`. -/
structure Sighting where
  description : String
  seenAt : Timestamp
deriving DecidableEq

/-- The mutable policy state of main.py: `last_alarm_time`,
`last_notification_time` and the dict `last_person_notification_by_camera`
(one slot per camera). -/
structure PolicyHistory where
  lastAlarmAt : Option Timestamp
  lastNotificationAt : Option Timestamp
  personSightings : List (String × Sighting)
deriving DecidableEq

/-- Python `dict.get(camera_name)` on the sightings dict. -/
def lookupSighting (m : List (String × Sighting)) (cam : String) : Option Sighting :=
  match m with
  | [] => none
  | (k, v) :: rest => if k = cam then some v else lookupSighting rest cam

/-- Remove every entry stored under a camera key. -/
def removeSighting (cam : String) : List (String × Sighting) → List (String × Sighting)
  | [] => []
  | (k, v) :: rest =>
    if k = cam then removeSighting cam rest else (k, v) :: removeSighting cam rest

/-- Python `dict[camera_name] = v`: afterwards the camera maps to `v` and every
other key is unchanged. -/
def insertSighting (m : List (String × Sighting)) (cam : String) (v : Sighting) :
    List (String × Sighting) :=
  (cam, v) :: removeSighting cam m

/-- The camera keys of the sightings map. -/
def sightingKeys (m : List (String × Sighting)) : List String := m.map Prod.fst

/-- The outcome of one run of the notification block: whether
`send_notification` was reached, the value of the `priority` variable at that
point (`none` when the block returned before `priority` was assigned), and the
delivery result (`false` when no send happened). -/
structure Decision where
  dispatch : Bool
  priority : Option Int
  delivered : Bool
deriving DecidableEq

/-- The branch selection of main.py lines 295-326: `analysis.startswith`
tests, case sensitive, on the raw analysis text, in source order.
`gateSkip` is the `not analysis.startswith("NOTHING TO REPORT")` gate at line
295 failing; `fallback` is the final `else: priority = -2` at line 325. -/
inductive CodeBranch where
  | gateSkip
  | alarm
  | observation
  | fallback
deriving DecidableEq

/-- Branch taken by the source for a given analysis text. -/
def codeBranch (analysis : String) : CodeBranch :=
  if pyStartsWith analysis ("NOTHING TO REPORT") then CodeBranch.gateSkip
  else if pyStartsWith analysis ("ALARM") then CodeBranch.alarm
  else if pyStartsWith analysis ("OBSERVATION") then CodeBranch.observation
  else CodeBranch.fallback

/-- main.py lines 308-317: priority of an alarm outside the backoff window.
`night` is the value of `is_night(current_time)`. -/
def alarmPriority (first_line : String) (night : Bool) : Int :=
  if pyStartsWith (pyUpper first_line) ("ALARM PERSON") then
    if night then 1 else 0
  else 1

/-- The condition of main.py lines 329-334 under which the unified person
dedupe suppresses the notification: a person event, a previous sighting on
the same camera within `PERSON_DEDUPE_MINUTES` (10 minutes = 600 s), a
non-empty message, and the comparator judging the descriptions the same. -/
def dedupeSuppressed (first_line message : String) (now : Timestamp)
    (cameraName : String) (cmpOracle : Except Unit String) (h : PolicyHistory) : Bool :=
  if is_person_event first_line then
    match lookupSighting h.personSightings cameraName with
    | some prev =>
      if now - prev.seenAt < 600 then
        message != (String.mk []) && compare_description prev.description message cmpOracle
      else false
    | none => false
  else false

/-- main.py lines 328-353: the unified person dedupe followed by the dispatch
block, entered with the `priority` variable already assigned.  `cmpOracle`
models the OpenAI collaborator behind `compare_description`; `sendOk` models
the boolean returned by `send_notification`. -/
def dedupeDispatch (priority : Int) (first_line message : String) (now : Timestamp)
    (cameraName : String) (cmpOracle : Except Unit String) (sendOk : Bool)
    (h : PolicyHistory) : Decision × PolicyHistory :=
  if dedupeSuppressed first_line message now cameraName cmpOracle h then
    (⟨false, some priority, false⟩, h)
  else
    (⟨true, some priority, sendOk⟩,
      { h with
        lastNotificationAt := some now
        personSightings :=
          if is_person_event first_line then
            insertSighting h.personSightings cameraName ⟨message, now⟩
          else h.personSightings })

/-- The notification decision block of `callback`, main.py lines 295-353, for
the `args.notify = True` configuration.  `now` is `current_time`, `night` is
`is_night(current_time)`, `cmpOracle` and `sendOk` model the two external
collaborators.  Returns the decision together with the policy state after the
event. -/
def notifyDecision (analysis : String) (now : Timestamp) (cameraName : String)
    (night : Bool) (cmpOracle : Except Unit String) (sendOk : Bool)
    (h : PolicyHistory) : Decision × PolicyHistory :=
  match codeBranch analysis with
  | CodeBranch.gateSkip => (⟨false, none, false⟩, h)
  | CodeBranch.alarm =>
    let first_line := firstLineOf analysis
    let message := messageOf analysis
    (match h.lastAlarmAt with
     | some t =>
       if now - t < 60 then
         dedupeDispatch 0 first_line message now cameraName cmpOracle sendOk h
       else
         dedupeDispatch (alarmPriority first_line night) first_line message now cameraName
           cmpOracle sendOk { h with lastAlarmAt := some now }
     | none =>
       dedupeDispatch (alarmPriority first_line night) first_line message now cameraName
         cmpOracle sendOk { h with lastAlarmAt := some now })
  | CodeBranch.observation =>
    let first_line := firstLineOf analysis
    let message := messageOf analysis
    (match h.lastNotificationAt with
     | some t =>
       if now - t < 10 then
         (⟨false, none, false⟩, h)
       else
         dedupeDispatch (-2) first_line message now cameraName cmpOracle sendOk h
     | none => dedupeDispatch (-2) first_line message now cameraName cmpOracle sendOk h)
  | CodeBranch.fallback =>
    dedupeDispatch (-2) (firstLineOf analysis) (messageOf analysis) now cameraName
      cmpOracle sendOk h

/-- `send_notification` from pushover.py.  `apiToken`, `userKey` and
`attachment` are the optional string arguments (`none` is Python `None`;
Python also treats the empty string as falsy, captured by `truthyStr`).
`attachmentIsFile` models `os.path.isfile(attachment)`; `httpResult` models
the `requests.post` call: `Except.error` is any raised exception,
`Except.ok code` the response status code. -/
def truthyStr : Option String → Bool
  | none => false
  | some s => s != (String.mk [])

/-- Status test `response.status_code == 200`, with exceptions giving `False`. -/
def httpOk200 : Except Unit Nat → Bool
  | Except.error _ => false
  | Except.ok code => code == 200

/-- The return value of `send_notification` (pushover.py lines 23-58). -/
def send_notification (apiToken userKey : Option String) (attachment : Option String)
    (attachmentIsFile : Bool) (httpResult : Except Unit Nat) : Bool :=
  if !(truthyStr apiToken) || !(truthyStr userKey) then false
  else if truthyStr attachment && !attachmentIsFile then false
  else httpOk200 httpResult

/-- The heartbeat store of watchdog.py: globals `_last_ws_message_at` and
`_connection_start_time`. -/
structure HeartbeatState where
  lastMessageAt : Option Timestamp
  connectionStartAt : Option Timestamp
deriving DecidableEq

/-- Both globals start as `None` (watchdog.py lines 16-17). -/
def initHeartbeat : HeartbeatState := ⟨none, none⟩

/-- `update_ws_heartbeat` (watchdog.py lines 19-24): set the last-message
timestamp, and initialize the connection start time only on the first
heartbeat. -/
def update_ws_heartbeat (now : Timestamp) (s : HeartbeatState) : HeartbeatState :=
  { lastMessageAt := some now
    connectionStartAt :=
      match s.connectionStartAt with
      | none => some now
      | some t => some t }

/-- `reset_connection_start_time` (watchdog.py lines 26-29). -/
def reset_connection_start_time (now : Timestamp) (s : HeartbeatState) : HeartbeatState :=
  { s with connectionStartAt := some now }

/-- Outcome of one periodic staleness evaluation (watchdog.py lines 57-76):
`skip` is the `continue` when no connection start time exists, otherwise the
check declares the stream stale or leaves it live. -/
inductive WatchdogCheck where
  | skip
  | live
  | stale
deriving DecidableEq

/-- The staleness evaluation of `WebsocketWatchdog.run`, watchdog.py lines
57-76, with `staleSeconds = WEBSOCKET_STALE_SECONDS` and
`initialTimeout = WEBSOCKET_INITIAL_TIMEOUT`. -/
def staleCheck (staleSeconds initialTimeout : Int) (hb : HeartbeatState) (now : Timestamp) :
    WatchdogCheck :=
  match hb.lastMessageAt with
  | none =>
    (match hb.connectionStartAt with
     | none => WatchdogCheck.skip
     | some start =>
       if now - start > initialTimeout then WatchdogCheck.stale else WatchdogCheck.live)
  | some last =>
    if now - last > staleSeconds then WatchdogCheck.stale else WatchdogCheck.live

/-- `check_interval` computed at watchdog.py line 51:
`max(10, min(60, WEBSOCKET_STALE_SECONDS // 3 if WEBSOCKET_STALE_SECONDS > 0 else 30))`. -/
def checkInterval (staleSeconds : Int) : Int :=
  max 10 (min 60 (if staleSeconds > 0 then staleSeconds / 3 else 30))

/-- `max_reconnect_failures` (watchdog.py line 48). -/
def maxReconnectFailures : Nat := 3

/-- One resubscription attempt, watchdog.py lines 90-109: on success the
failure counter resets to 0; on failure it is incremented and, at
`max_reconnect_failures`, the process exits with `sys.exit(1)`.  Returns the
new counter and `some exitCode` when the process terminates. -/
def resubscribeStep (count : Nat) (ok : Bool) : Nat × Option Nat :=
  if ok then (0, none)
  else if count + 1 ≥ maxReconnectFailures then (count + 1, some 1) else (count + 1, none)

/-- Run a sequence of resubscription attempts from a given counter value,
returning `some code` when the supervisor terminated the process. -/
def runAttempts (count : Nat) : List Bool → Option Nat
  | [] => none
  | ok :: rest =>
    match resubscribeStep count ok with
    | (_, some code) => some code
    | (c, none) => runAttempts c rest

/-- Three consecutive failed attempts somewhere in the sequence. -/
def hasThreeConsecFalse : List Bool → Bool
  | false :: false :: false :: _ => true
  | _ :: rest => hasThreeConsecFalse rest
  | [] => false

/-- One inbound camera event as the decision block sees it: the analysis
text, the wall-clock reading, the camera name, the `is_night` value and the
behaviours of the two external collaborators. -/
structure Event where
  analysis : String
  time : Timestamp
  camera : String
  night : Bool
  cmpOracle : Except Unit String
  sendOk : Bool

/-- `notifyDecision` applied to an event record. -/
def notifyDecisionEv (e : Event) (h : PolicyHistory) : Decision × PolicyHistory :=
  notifyDecision e.analysis e.time e.camera e.night e.cmpOracle e.sendOk h

/-- Fold the decision step over a trace of events. -/
def runEvents (h : PolicyHistory) : List Event → PolicyHistory
  | [] => h
  | e :: rest => runEvents (notifyDecisionEv e h).2 rest

/-- The person-sighting records written along a trace: one entry per event
that was dispatched (`dispatch = true`) and was a person event, in order. -/
def dispatchedPersonLog (h : PolicyHistory) : List Event → List (String × Sighting)
  | [] => []
  | e :: rest =>
    (if (notifyDecisionEv e h).1.dispatch && is_person_event (firstLineOf e.analysis) then
      [(e.camera, Sighting.mk (messageOf e.analysis) e.time)]
    else []) ++ dispatchedPersonLog (notifyDecisionEv e h).2 rest

/-- The last record for a camera in a log of sighting writes. -/
def lastFor (cam : String) : List (String × Sighting) → Option Sighting
  | [] => none
  | (k, v) :: rest =>
    match lastFor cam rest with
    | some r => some r
    | none => if k = cam then some v else none

/-- Modelled from the spec: the first line's second whitespace-delimited
token.  Spec section 3 defines `AnalysisOutcome.subjectType` as "derived from
the first line's second token", uppercased; section 4.3 phrases it as "the
next whitespace-delimited token after the prefix (uppercased), or absent if
none".  There is no such extraction in the source; this definition follows the
spec's words for comparison with the source behaviour. -/
def wsTokensAux : List Char → List Char → List (List Char)
  | acc, [] => if acc.isEmpty then [] else [acc.reverse]
  | acc, c :: cs =>
    if c.isWhitespace then
      if acc.isEmpty then wsTokensAux [] cs else acc.reverse :: wsTokensAux [] cs
    else wsTokensAux (c :: acc) cs

/-- Python `s.split()` with no separator: whitespace-delimited tokens. -/
def wsTokens (s : String) : List String := (wsTokensAux [] s.data).map String.mk

/-- Modelled from the spec: the subject type of an analysis, per the spec's
classifier (second whitespace-delimited token of the stripped first line,
uppercased). -/
def specSubjectType (analysis : String) : Option String :=
  ((wsTokens (firstLineOf analysis)).get? 1).map pyUpper

/-- The spec's three event kinds (spec section 3, `AnalysisOutcome.kind`). -/
inductive SpecKind where
  | alarm
  | observation
  | nothingKind
deriving DecidableEq

/-- Modelled from the spec (section 4.3): "take line 1, strip whitespace, test
case-insensitive prefixes in order `ALARM`, `OBSERVATION`, else `Nothing`.
If prefix matched, `subjectType` = the next whitespace-delimited token after
the prefix (uppercased), or absent if none." -/
def specClassify (analysis : String) : SpecKind × Option String :=
  let u := pyUpper (firstLineOf analysis)
  if pyStartsWith u ("ALARM") then (SpecKind.alarm, specSubjectType analysis)
  else if pyStartsWith u ("OBSERVATION") then (SpecKind.observation, specSubjectType analysis)
  else (SpecKind.nothingKind, none)

/-- Character-by-character prefix test, used to phrase the amended classifier
claim independently of `pyStartsWith`. -/
def charPrefix : List Char → List Char → Bool
  | [], _ => true
  | _ :: _, [] => false
  | p :: ps, c :: cs => p == c && charPrefix ps cs

/-- The amended classifier kind: case-sensitive prefix tests on the raw
analysis text, in order `NOTHING TO REPORT` (dropped at the gate), `ALARM`,
`OBSERVATION`, else the default branch. -/
def amendedKind (analysis : String) : CodeBranch :=
  if charPrefix ("NOTHING TO REPORT").data analysis.data then CodeBranch.gateSkip
  else if charPrefix ("ALARM").data analysis.data then CodeBranch.alarm
  else if charPrefix ("OBSERVATION").data analysis.data then CodeBranch.observation
  else CodeBranch.fallback

/-- The amended person detection: the stripped first line, uppercased, starts
with `ALARM PERSON` or `OBSERVATION PERSON`. -/
def amendedPersonTest (first_line : String) : Bool :=
  charPrefix ("ALARM PERSON").data (pyUpper first_line).data
    || charPrefix ("OBSERVATION PERSON").data (pyUpper first_line).data

/-! ### Helper lemmas -/

theorem pyStartsWith_first_char_exclusive (s p q : String) (cp cq : Char) (ps qs : List Char)
    (hp : p.data = cp :: ps) (hq : q.data = cq :: qs) (hne : cp ≠ cq)
    (h : pyStartsWith s p = true) : pyStartsWith s q = false := by
  unfold pyStartsWith at h ⊢
  rw [hp] at h
  rw [hq]
  cases hsd : s.data with
  | nil =>
    rw [hsd] at h
    rw [show List.isPrefixOf (cp :: ps) ([] : List Char) = false from rfl] at h
    exact Bool.noConfusion h
  | cons c cs =>
    rw [hsd] at h
    simp only [List.isPrefixOf, Bool.and_eq_true, beq_iff_eq] at h
    obtain ⟨hc, -⟩ := h
    subst hc
    cases hqc : (cq == cp) with
    | false => simp [List.isPrefixOf, hqc]
    | true => exact absurd (eq_of_beq hqc) (fun hq2 => hne hq2.symm)

theorem alarm_prefix_not_gate (s : String) (h : pyStartsWith s ("ALARM") = true) :
    pyStartsWith s ("NOTHING TO REPORT") = false :=
  pyStartsWith_first_char_exclusive s ("ALARM") ("NOTHING TO REPORT") 'A' 'N' _ _
    rfl rfl (by decide) h

theorem observation_prefix_not_gate (s : String) (h : pyStartsWith s ("OBSERVATION") = true) :
    pyStartsWith s ("NOTHING TO REPORT") = false :=
  pyStartsWith_first_char_exclusive s ("OBSERVATION") ("NOTHING TO REPORT") 'O' 'N' _ _
    rfl rfl (by decide) h

theorem observation_prefix_not_alarm (s : String) (h : pyStartsWith s ("OBSERVATION") = true) :
    pyStartsWith s ("ALARM") = false :=
  pyStartsWith_first_char_exclusive s ("OBSERVATION") ("ALARM") 'O' 'A' _ _
    rfl rfl (by decide) h

theorem charPrefix_eq_isPrefixOf (p s : List Char) : charPrefix p s = p.isPrefixOf s := by
  induction p generalizing s with
  | nil => cases s <;> rfl
  | cons a ps ih =>
    cases s with
    | nil => rfl
    | cons c cs => simp [charPrefix, List.isPrefixOf, ih]

theorem lookupSighting_insert_self (m : List (String × Sighting)) (cam : String) (v : Sighting) :
    lookupSighting (insertSighting m cam v) cam = some v := by
  simp [insertSighting, lookupSighting]

theorem lookupSighting_remove (cam c : String) (m : List (String × Sighting)) (hne : c ≠ cam) :
    lookupSighting (removeSighting cam m) c = lookupSighting m c := by
  induction m with
  | nil => rfl
  | cons p rest ih =>
    obtain ⟨k, v⟩ := p
    by_cases hk : k = cam
    · subst hk
      have hkc : ¬(k = c) := fun hc => hne hc.symm
      simp only [removeSighting, eq_self_iff_true, if_true, lookupSighting, if_neg hkc, ih]
    · simp only [removeSighting, if_neg hk, lookupSighting, ih]

theorem lookupSighting_insert_other (m : List (String × Sighting)) (cam c : String)
    (v : Sighting) (hne : c ≠ cam) :
    lookupSighting (insertSighting m cam v) c = lookupSighting m c := by
  have hcamc : ¬(cam = c) := fun hc => hne hc.symm
  simp [insertSighting, lookupSighting, hcamc, lookupSighting_remove cam c m hne]

theorem mem_sightingKeys_remove (cam c : String) (m : List (String × Sighting))
    (hc : c ∈ sightingKeys (removeSighting cam m)) : c ∈ sightingKeys m := by
  induction m with
  | nil => exact hc
  | cons p rest ih =>
    obtain ⟨k, v⟩ := p
    by_cases hk : k = cam
    · simp only [removeSighting, hk, if_pos rfl] at hc
      simp only [sightingKeys, List.map_cons, List.mem_cons]
      exact Or.inr (ih hc)
    · simp only [removeSighting, if_neg hk] at hc
      simp only [sightingKeys, List.map_cons, List.mem_cons] at hc ⊢
      rcases hc with hc | hc
      · exact Or.inl hc
      · exact Or.inr (ih hc)

theorem not_mem_sightingKeys_remove (cam : String) (m : List (String × Sighting)) :
    cam ∉ sightingKeys (removeSighting cam m) := by
  induction m with
  | nil => simp [removeSighting, sightingKeys]
  | cons p rest ih =>
    obtain ⟨k, v⟩ := p
    by_cases hk : k = cam
    · simpa [removeSighting, hk] using ih
    · simp only [removeSighting, if_neg hk, sightingKeys, List.map_cons, List.mem_cons]
      intro hor
      rcases hor with hor | hor
      · exact hk hor.symm
      · exact ih hor

theorem nodup_sightingKeys_remove (cam : String) (m : List (String × Sighting))
    (hm : (sightingKeys m).Nodup) : (sightingKeys (removeSighting cam m)).Nodup := by
  induction m with
  | nil => simp [removeSighting, sightingKeys]
  | cons p rest ih =>
    obtain ⟨k, v⟩ := p
    simp only [sightingKeys, List.map_cons, List.nodup_cons] at hm
    by_cases hk : k = cam
    · simp only [removeSighting, if_pos hk]
      exact ih hm.2
    · simp only [removeSighting, if_neg hk, sightingKeys, List.map_cons, List.nodup_cons]
      exact ⟨fun hmem => hm.1 (mem_sightingKeys_remove cam k rest hmem), ih hm.2⟩

theorem nodup_sightingKeys_insert (m : List (String × Sighting)) (cam : String) (v : Sighting)
    (hm : (sightingKeys m).Nodup) : (sightingKeys (insertSighting m cam v)).Nodup := by
  simp only [insertSighting, sightingKeys, List.map_cons, List.nodup_cons]
  exact ⟨not_mem_sightingKeys_remove cam m, nodup_sightingKeys_remove cam m hm⟩

theorem dd_priority (p : Int) (fl msg : String) (now : Timestamp) (cam : String)
    (orc : Except Unit String) (so : Bool) (h : PolicyHistory) :
    (dedupeDispatch p fl msg now cam orc so h).1.priority = some p := by
  unfold dedupeDispatch
  split <;> rfl

theorem dd_lastAlarmAt (p : Int) (fl msg : String) (now : Timestamp) (cam : String)
    (orc : Except Unit String) (so : Bool) (h : PolicyHistory) :
    (dedupeDispatch p fl msg now cam orc so h).2.lastAlarmAt = h.lastAlarmAt := by
  unfold dedupeDispatch
  split <;> rfl

theorem dd_eq_suppressed (p : Int) (fl msg : String) (now : Timestamp) (cam : String)
    (orc : Except Unit String) (so : Bool) (h : PolicyHistory)
    (hs : dedupeSuppressed fl msg now cam orc h = true) :
    dedupeDispatch p fl msg now cam orc so h = (⟨false, some p, false⟩, h) := by
  simp [dedupeDispatch, hs]

theorem dd_eq_dispatch (p : Int) (fl msg : String) (now : Timestamp) (cam : String)
    (orc : Except Unit String) (so : Bool) (h : PolicyHistory)
    (hs : dedupeSuppressed fl msg now cam orc h = false) :
    dedupeDispatch p fl msg now cam orc so h =
      (⟨true, some p, so⟩,
        { h with
          lastNotificationAt := some now
          personSightings :=
            if is_person_event fl then insertSighting h.personSightings cam ⟨msg, now⟩
            else h.personSightings }) := by
  simp [dedupeDispatch, hs]

theorem dedupeSuppressed_iff (fl msg : String) (now : Timestamp) (cam : String)
    (orc : Except Unit String) (h : PolicyHistory) :
    dedupeSuppressed fl msg now cam orc h = true ↔
      is_person_event fl = true ∧
        ∃ prev, lookupSighting h.personSightings cam = some prev ∧
          now - prev.seenAt < 600 ∧ ¬(msg = String.mk []) ∧
          compare_description prev.description msg orc = true := by
  unfold dedupeSuppressed
  cases hp : is_person_event fl
  · simp
  · simp only [true_and]
    cases hl : lookupSighting h.personSightings cam
    · simp
    · rename_i prev
      by_cases h6 : now - prev.seenAt < 600
      · simp [h6, bne_iff_ne]
      · simp [h6]

theorem codeBranch_eq_gate (analysis : String)
    (h1 : pyStartsWith analysis ("NOTHING TO REPORT") = true) :
    codeBranch analysis = CodeBranch.gateSkip := by
  simp [codeBranch, h1]

theorem codeBranch_eq_alarm (analysis : String)
    (h1 : pyStartsWith analysis ("NOTHING TO REPORT") = false)
    (h2 : pyStartsWith analysis ("ALARM") = true) :
    codeBranch analysis = CodeBranch.alarm := by
  simp [codeBranch, h1, h2]

theorem codeBranch_eq_observation (analysis : String)
    (h1 : pyStartsWith analysis ("NOTHING TO REPORT") = false)
    (h2 : pyStartsWith analysis ("ALARM") = false)
    (h3 : pyStartsWith analysis ("OBSERVATION") = true) :
    codeBranch analysis = CodeBranch.observation := by
  simp [codeBranch, h1, h2, h3]

theorem notifyDecision_gate (analysis : String) (now : Timestamp) (cam : String) (night : Bool)
    (orc : Except Unit String) (so : Bool) (h : PolicyHistory)
    (hb : codeBranch analysis = CodeBranch.gateSkip) :
    notifyDecision analysis now cam night orc so h = (⟨false, none, false⟩, h) := by
  unfold notifyDecision
  rw [hb]

theorem notifyDecision_alarm (analysis : String) (now : Timestamp) (cam : String) (night : Bool)
    (orc : Except Unit String) (so : Bool) (h : PolicyHistory)
    (hb : codeBranch analysis = CodeBranch.alarm) :
    notifyDecision analysis now cam night orc so h =
      (match h.lastAlarmAt with
       | some t =>
         if now - t < 60 then
           dedupeDispatch 0 (firstLineOf analysis) (messageOf analysis) now cam orc so h
         else
           dedupeDispatch (alarmPriority (firstLineOf analysis) night) (firstLineOf analysis)
             (messageOf analysis) now cam orc so { h with lastAlarmAt := some now }
       | none =>
         dedupeDispatch (alarmPriority (firstLineOf analysis) night) (firstLineOf analysis)
           (messageOf analysis) now cam orc so { h with lastAlarmAt := some now }) := by
  unfold notifyDecision
  rw [hb]

theorem notifyDecision_observation (analysis : String) (now : Timestamp) (cam : String)
    (night : Bool) (orc : Except Unit String) (so : Bool) (h : PolicyHistory)
    (hb : codeBranch analysis = CodeBranch.observation) :
    notifyDecision analysis now cam night orc so h =
      (match h.lastNotificationAt with
       | some t =>
         if now - t < 10 then
           (⟨false, none, false⟩, h)
         else
           dedupeDispatch (-2) (firstLineOf analysis) (messageOf analysis) now cam orc so h
       | none =>
         dedupeDispatch (-2) (firstLineOf analysis) (messageOf analysis) now cam orc so h) := by
  unfold notifyDecision
  rw [hb]

theorem notifyDecision_fallback (analysis : String) (now : Timestamp) (cam : String)
    (night : Bool) (orc : Except Unit String) (so : Bool) (h : PolicyHistory)
    (hb : codeBranch analysis = CodeBranch.fallback) :
    notifyDecision analysis now cam night orc so h =
      dedupeDispatch (-2) (firstLineOf analysis) (messageOf analysis) now cam orc so h := by
  unfold notifyDecision
  rw [hb]

/-! ### Claim theorems -/

/-- Claim C1 (amended): for every event taking the ALARM branch, decided at
time `now`: if `lastAlarmAt` is set and `now − lastAlarmAt < 60 s`, the
decision has priority 0 and `lastAlarmAt` is left unchanged; otherwise the
priority is 0 when the uppercased stripped first line starts with
`ALARM PERSON` and it is not night, 1 in every other case, and in both of
those sub-cases `lastAlarmAt` is set to `now`. -/
theorem alarm_backoff_priority_spec
    (analysis : String) (now : Timestamp) (cam : String) (night : Bool)
    (orc : Except Unit String) (so : Bool) (h : PolicyHistory)
    (halarm : pyStartsWith analysis ("ALARM") = true) :
    (∀ t, h.lastAlarmAt = some t → now - t < 60 →
      ((notifyDecision analysis now cam night orc so h).1.priority = some 0 ∧
       (notifyDecision analysis now cam night orc so h).2.lastAlarmAt = some t)) ∧
    ((∀ t, h.lastAlarmAt = some t → ¬(now - t < 60)) →
      ((notifyDecision analysis now cam night orc so h).1.priority =
        some (if pyStartsWith (pyUpper (firstLineOf analysis)) ("ALARM PERSON") = true ∧
                  night = false then 0 else 1) ∧
       (notifyDecision analysis now cam night orc so h).2.lastAlarmAt = some now)) := by
  have hb := codeBranch_eq_alarm analysis (alarm_prefix_not_gate analysis halarm) halarm
  have hrw := notifyDecision_alarm analysis now cam night orc so h hb
  constructor
  · intro t ht hlt
    rw [hrw, ht]
    simp only [if_pos hlt]
    exact ⟨dd_priority _ _ _ _ _ _ _ _, (dd_lastAlarmAt _ _ _ _ _ _ _ _).trans ht⟩
  · intro hnb
    have hpr : alarmPriority (firstLineOf analysis) night =
        if pyStartsWith (pyUpper (firstLineOf analysis)) ("ALARM PERSON") = true ∧
            night = false then 0 else 1 := by
      unfold alarmPriority
      cases hp : pyStartsWith (pyUpper (firstLineOf analysis)) ("ALARM PERSON") <;>
        cases night <;> simp
    cases ht : h.lastAlarmAt with
    | none =>
      rw [hrw, ht]
      refine ⟨?_, ?_⟩
      · rw [dd_priority, hpr]
      · rw [dd_lastAlarmAt]
    | some t =>
      have hno := hnb t ht
      rw [hrw, ht]
      simp only [if_neg hno]
      refine ⟨?_, ?_⟩
      · rw [dd_priority, hpr]
      · rw [dd_lastAlarmAt]

/-- Witness for C1: a second alarm 30 s after `lastAlarmAt = 0` gets priority
0 and leaves `lastAlarmAt` unchanged. -/
theorem alarm_backoff_priority_spec_witness :
    (notifyDecision ("ALARM CAR\nred car") 30 ("cam") false (Except.error ()) true
        ⟨some 0, none, []⟩).1.priority = some 0 ∧
    (notifyDecision ("ALARM CAR\nred car") 30 ("cam") false (Except.error ()) true
        ⟨some 0, none, []⟩).2.lastAlarmAt = some 0 :=
  (alarm_backoff_priority_spec ("ALARM CAR\nred car") 30 ("cam") false (Except.error ()) true
      ⟨some 0, none, []⟩ (by decide)).1 0 rfl (by decide)

/-- Counterexample to C1 as stated: the alarm `ALARM PERSONAL` has subject
type `PERSONAL` (not `PERSON`), it is not night and no alarm backoff is
active, so the claim prescribes priority 1; the code tests
`first_line.upper().startswith("ALARM PERSON")`, which matches, and gives
priority 0. -/
theorem alarm_subject_priority_cex :
    specSubjectType ("ALARM PERSONAL\nperson in a suit") = some ("PERSONAL") ∧
    pyStartsWith ("ALARM PERSONAL\nperson in a suit") ("ALARM") = true ∧
    (notifyDecision ("ALARM PERSONAL\nperson in a suit") 1000 ("cam") false (Except.error ())
        true ⟨none, none, []⟩).1.priority = some 0 ∧
    ¬((notifyDecision ("ALARM PERSONAL\nperson in a suit") 1000 ("cam") false (Except.error ())
        true ⟨none, none, []⟩).1.priority = some 1) := by
  decide

/-- Claim C2 (amended): for every event taking the OBSERVATION branch
(analysis text starting with `OBSERVATION`, case-sensitively) decided at
`now` with `lastNotificationAt` set and `now − lastNotificationAt < 10 s`,
the engine returns immediately with `dispatch = false`: the person-dedupe
step is skipped (the result does not depend on the comparator) and no field
of the history is mutated. -/
theorem observation_backoff_suppresses
    (analysis : String) (now t : Timestamp) (cam : String) (night : Bool)
    (orc : Except Unit String) (so : Bool) (h : PolicyHistory)
    (hobs : pyStartsWith analysis ("OBSERVATION") = true)
    (hlast : h.lastNotificationAt = some t)
    (hlt : now - t < 10) :
    notifyDecision analysis now cam night orc so h = (⟨false, none, false⟩, h) := by
  have hb := codeBranch_eq_observation analysis (observation_prefix_not_gate analysis hobs)
    (observation_prefix_not_alarm analysis hobs) hobs
  rw [notifyDecision_observation analysis now cam night orc so h hb, hlast]
  simp [hlt]

/-- Witness for C2: an observation 5 s after any notification is fully
suppressed with the history unchanged. -/
theorem observation_backoff_suppresses_witness :
    notifyDecision ("OBSERVATION CAR\na car") 5 ("cam") false (Except.error ()) true
      ⟨none, some 0, []⟩ = (⟨false, none, false⟩, ⟨none, some 0, []⟩) :=
  observation_backoff_suppresses ("OBSERVATION CAR\na car") 5 0 ("cam") false
    (Except.error ()) true ⟨none, some 0, []⟩ (by decide) rfl (by decide)

/-- Counterexample to C2 as stated: `observation car` in lower case is an
Observation event per the spec's case-insensitive classifier, and a
notification 5 s old is within the 10 s window, so the claim says it is
fully suppressed with `lastNotificationAt` unchanged; the code's branch test
at main.py:319 is case sensitive, so the event takes the default branch,
which has no backoff check: it is dispatched with priority −2 and
`lastNotificationAt` is overwritten. -/
theorem observation_kind_backoff_cex :
    (specClassify ("observation car\nx")).1 = SpecKind.observation ∧
    notifyDecision ("observation car\nx") 5 ("c") false (Except.error ()) true
        ⟨none, some 0, []⟩
      = (⟨true, some (-2), true⟩, ⟨none, some 5, []⟩) := by
  decide

theorem codeBranch_eq_fallback (analysis : String)
    (h1 : pyStartsWith analysis ("NOTHING TO REPORT") = false)
    (h2 : pyStartsWith analysis ("ALARM") = false)
    (h3 : pyStartsWith analysis ("OBSERVATION") = false) :
    codeBranch analysis = CodeBranch.fallback := by
  simp [codeBranch, h1, h2, h3]

theorem dd_dispatch_false_iff (p : Int) (fl msg : String) (now : Timestamp) (cam : String)
    (orc : Except Unit String) (so : Bool) (h : PolicyHistory) :
    (dedupeDispatch p fl msg now cam orc so h).1.dispatch = false ↔
      dedupeSuppressed fl msg now cam orc h = true := by
  cases hs : dedupeSuppressed fl msg now cam orc h
  · rw [dd_eq_dispatch p fl msg now cam orc so h hs]
    simp
  · rw [dd_eq_suppressed p fl msg now cam orc so h hs]
    simp

/-- Claim C3 (amended): for every event that passes the gate and reaches the
person-dedupe step, and whose uppercased stripped first line starts with
`ALARM PERSON` or `OBSERVATION PERSON` (the code's person test): the event is
suppressed (`dispatch = false`) exactly when `personSightings` has an entry
for the camera, `now − entry.seenAt < 600 s`, the outbound message is
non-empty, and the description comparator judges the two descriptions the
same; a comparator error makes `compare_description` return false, so the
event is still dispatched. -/
theorem person_dedupe_spec
    (analysis : String) (now : Timestamp) (cam : String) (night : Bool)
    (orc : Except Unit String) (so : Bool) (h : PolicyHistory)
    (hgate : pyStartsWith analysis ("NOTHING TO REPORT") = false)
    (hreach : pyStartsWith analysis ("ALARM") = false →
      pyStartsWith analysis ("OBSERVATION") = true →
      ∀ t, h.lastNotificationAt = some t → ¬(now - t < 10))
    (hperson : is_person_event (firstLineOf analysis) = true) :
    ((notifyDecision analysis now cam night orc so h).1.dispatch = false ↔
      ∃ prev, lookupSighting h.personSightings cam = some prev ∧
        now - prev.seenAt < 600 ∧ ¬(messageOf analysis = String.mk []) ∧
        compare_description prev.description (messageOf analysis) orc = true) ∧
    (∀ a b : String, compare_description a b (Except.error ()) = false) := by
  constructor
  · have key : ∀ (p : Int) (h' : PolicyHistory), h'.personSightings = h.personSightings →
        ((dedupeDispatch p (firstLineOf analysis) (messageOf analysis) now cam orc so
            h').1.dispatch = false ↔
          ∃ prev, lookupSighting h.personSightings cam = some prev ∧
            now - prev.seenAt < 600 ∧ ¬(messageOf analysis = String.mk []) ∧
            compare_description prev.description (messageOf analysis) orc = true) := by
      intro p h' hps
      rw [dd_dispatch_false_iff, dedupeSuppressed_iff, hps]
      simp [hperson]
    cases hA : pyStartsWith analysis ("ALARM") with
    | true =>
      have hb := codeBranch_eq_alarm analysis hgate hA
      rw [notifyDecision_alarm analysis now cam night orc so h hb]
      cases ht : h.lastAlarmAt with
      | none => exact key _ _ rfl
      | some t =>
        by_cases hlt : now - t < 60
        · simp only [if_pos hlt]
          exact key _ _ rfl
        · simp only [if_neg hlt]
          exact key _ _ rfl
    | false =>
      cases hO : pyStartsWith analysis ("OBSERVATION") with
      | true =>
        have hb := codeBranch_eq_observation analysis hgate hA hO
        rw [notifyDecision_observation analysis now cam night orc so h hb]
        cases ht : h.lastNotificationAt with
        | none => exact key _ _ rfl
        | some t =>
          have hnb := hreach hA hO t ht
          simp only [if_neg hnb]
          exact key _ _ rfl
      | false =>
        have hb := codeBranch_eq_fallback analysis hgate hA hO
        rw [notifyDecision_fallback analysis now cam night orc so h hb]
        exact key _ _ rfl
  · intro a b
    rfl

/-- Witness for C3: a repeat person observation 300 s after a dispatched
sighting with the same description, comparator answering SAME, is suppressed;
and a comparator error yields "not the same". -/
theorem person_dedupe_spec_witness :
    (notifyDecision ("OBSERVATION PERSON\nblue jacket") 300 ("cam1") false
        (Except.ok ("SAME")) true
        ⟨none, none, [(("cam1"), ⟨("blue jacket"), 0⟩)]⟩).1.dispatch = false ∧
    compare_description ("a") ("b") (Except.error ()) = false :=
  ⟨(person_dedupe_spec ("OBSERVATION PERSON\nblue jacket") 300 ("cam1") false
      (Except.ok ("SAME")) true ⟨none, none, [(("cam1"), ⟨("blue jacket"), 0⟩)]⟩
      (by decide) (fun _ _ t ht => by simp at ht) (by decide)).1.mpr
      ⟨⟨("blue jacket"), 0⟩, rfl, by decide, by decide, by decide⟩,
    (person_dedupe_spec ("OBSERVATION PERSON\nblue jacket") 300 ("cam1") false
      (Except.ok ("SAME")) true ⟨none, none, [(("cam1"), ⟨("blue jacket"), 0⟩)]⟩
      (by decide) (fun _ _ t ht => by simp at ht) (by decide)).2 ("a") ("b")⟩

/-- Counterexample to C3 as stated: the first line `ALARM  PERSON` (two
spaces) has subject type `PERSON` per the spec's whitespace tokenization, the
event reaches the dedupe step with a fresh same-description sighting and the
comparator answering SAME, so the claim says it is suppressed; the code's
`is_person_event` tests the literal prefix `"ALARM PERSON"` (one space),
which fails, so the event is dispatched. -/
theorem person_dedupe_subject_cex :
    specSubjectType ("ALARM  PERSON\nblue jacket") = some ("PERSON") ∧
    pyStartsWith ("ALARM  PERSON\nblue jacket") ("ALARM") = true ∧
    compare_description ("blue jacket") ("blue jacket") (Except.ok ("SAME")) = true ∧
    lookupSighting [(("cam1"), ⟨("blue jacket"), 0⟩)] ("cam1") = some ⟨("blue jacket"), 0⟩ ∧
    (notifyDecision ("ALARM  PERSON\nblue jacket") 300 ("cam1") false (Except.ok ("SAME")) true
        ⟨none, none, [(("cam1"), ⟨("blue jacket"), 0⟩)]⟩).1.dispatch = true := by
  decide

/-- Counterexample to C4 as stated: per the claim, a first line
`alarm person at the door` in lower case classifies as an Alarm with subject
`PERSON`; the code's prefix tests are case sensitive on the raw analysis
text, so this event takes the default branch and is decided with the default
priority −2 rather than an alarm priority. -/
theorem classifier_case_cex :
    specClassify ("alarm person at the door\nA person stands at the door")
      = (SpecKind.alarm, some ("PERSON")) ∧
    codeBranch ("alarm person at the door\nA person stands at the door")
      = CodeBranch.fallback ∧
    (notifyDecision ("alarm person at the door\nA person stands at the door") 0 ("c") false
        (Except.error ()) true ⟨none, none, []⟩).1.priority = some (-2) := by
  decide

/-- Claim C4 (amended): the engine classifies by case-sensitive prefix tests
on the raw analysis text, in order `NOTHING TO REPORT` (dropped at the gate),
`ALARM`, `OBSERVATION`, else a default branch; no subject token is extracted;
person events are instead detected by testing, case-insensitively, whether
the stripped first line starts with `ALARM PERSON` or `OBSERVATION PERSON`;
consequently a lower-case `alarm person ...` first line is classified as
neither Alarm nor Observation, though it still counts as a person event. -/
theorem classifier_amended_refinement :
    (∀ s : String, amendedKind s = codeBranch s) ∧
    (∀ s : String, amendedPersonTest (firstLineOf s) = is_person_event (firstLineOf s)) ∧
    codeBranch ("alarm person at the door\nX") = CodeBranch.fallback ∧
    is_person_event (firstLineOf ("alarm person at the door\nX")) = true := by
  refine ⟨?_, ?_, by decide, by decide⟩
  · intro s
    unfold amendedKind codeBranch pyStartsWith
    rw [charPrefix_eq_isPrefixOf, charPrefix_eq_isPrefixOf, charPrefix_eq_isPrefixOf]
  · intro s
    unfold amendedPersonTest is_person_event pyStartsWith
    rw [charPrefix_eq_isPrefixOf, charPrefix_eq_isPrefixOf]

/-- Claim C5: on each supervisor periodic check, the stream is declared stale
iff either `lastMessageAt` is set and `now − lastMessageAt > staleThreshold`,
or `lastMessageAt` is unset, `connectionStartAt` is set and
`now − connectionStartAt > initialTimeout`; with both unset the check is
skipped; the check interval is `clamp(staleThreshold/3, 10, 60)` (60 s for
the default threshold of 300 s). -/
theorem stale_check_spec :
    (∀ (staleT initT : Int) (hb : HeartbeatState) (now : Timestamp),
      staleCheck staleT initT hb now = WatchdogCheck.stale ↔
        ((∃ last, hb.lastMessageAt = some last ∧ now - last > staleT) ∨
         (hb.lastMessageAt = none ∧
           ∃ start, hb.connectionStartAt = some start ∧ now - start > initT))) ∧
    (∀ (staleT initT : Int) (now : Timestamp),
      staleCheck staleT initT ⟨none, none⟩ now = WatchdogCheck.skip) ∧
    checkInterval 300 = 60 ∧
    (∀ staleT : Int, 0 < staleT → checkInterval staleT = max 10 (min 60 (staleT / 3))) := by
  refine ⟨?_, fun staleT initT now => rfl, by decide, ?_⟩
  · intro staleT initT hb now
    obtain ⟨lm, cs⟩ := hb
    cases lm with
    | some last =>
      by_cases hgt : now - last > staleT
      · simp [staleCheck, hgt]
      · simp [staleCheck, hgt]
    | none =>
      cases cs with
      | none => simp [staleCheck]
      | some start =>
        by_cases hgt : now - start > initT
        · simp [staleCheck, hgt]
        · simp [staleCheck, hgt]
  · intro staleT hpos
    simp [checkInterval, if_pos hpos]

/-- Witness for C5: with no heartbeat and a connection started at 0, a check
at 61 s (initial timeout 60 s) is stale; and the default interval instance. -/
theorem stale_check_spec_witness :
    staleCheck 300 60 ⟨none, some 0⟩ 61 = WatchdogCheck.stale ∧
    checkInterval 300 = max 10 (min 60 (300 / 3)) :=
  ⟨(stale_check_spec.1 300 60 ⟨none, some 0⟩ 61).mpr (Or.inr ⟨rfl, 0, rfl, by decide⟩),
    stale_check_spec.2.2.2 300 (by decide)⟩

theorem hasThree_replicate_true (c : Nat) (hc : c ≤ 2) (rest : List Bool) :
    hasThreeConsecFalse (List.replicate c false ++ true :: rest) = hasThreeConsecFalse rest := by
  interval_cases c <;> rfl

theorem runAttempts_error_iff (l : List Bool) : ∀ c : Nat, c ≤ 2 →
    (runAttempts c l = some 1 ↔
      hasThreeConsecFalse (List.replicate c false ++ l) = true) := by
  induction l with
  | nil =>
    intro c hc
    interval_cases c <;> simp [runAttempts, hasThreeConsecFalse, List.replicate]
  | cons ok rest ih =>
    intro c hc
    cases ok with
    | true =>
      have h1 : runAttempts c (true :: rest) = runAttempts 0 rest := by
        simp [runAttempts, resubscribeStep]
      rw [h1, hasThree_replicate_true c hc rest]
      exact ih 0 (by norm_num)
    | false =>
      interval_cases c
      · have h1 : runAttempts 0 (false :: rest) = runAttempts 1 rest := by
          simp [runAttempts, resubscribeStep, maxReconnectFailures]
        rw [h1]
        have h2 : hasThreeConsecFalse (List.replicate 0 false ++ false :: rest)
            = hasThreeConsecFalse (List.replicate 1 false ++ rest) := rfl
        rw [h2]
        exact ih 1 (by norm_num)
      · have h1 : runAttempts 1 (false :: rest) = runAttempts 2 rest := by
          simp [runAttempts, resubscribeStep, maxReconnectFailures]
        rw [h1]
        have h2 : hasThreeConsecFalse (List.replicate 1 false ++ false :: rest)
            = hasThreeConsecFalse (List.replicate 2 false ++ rest) := rfl
        rw [h2]
        exact ih 2 (by norm_num)
      · have h1 : runAttempts 2 (false :: rest) = some 1 := by
          simp [runAttempts, resubscribeStep, maxReconnectFailures]
        have h2 : hasThreeConsecFalse (List.replicate 2 false ++ false :: rest) = true := rfl
        rw [h1, h2]
        simp

theorem runAttempts_code_eq_one (l : List Bool) : ∀ (c code : Nat),
    runAttempts c l = some code → code = 1 := by
  induction l with
  | nil =>
    intro c code hc
    simp [runAttempts] at hc
  | cons ok rest ih =>
    intro c code hc
    cases ok with
    | true =>
      rw [show runAttempts c (true :: rest) = runAttempts 0 rest by
        simp [runAttempts, resubscribeStep]] at hc
      exact ih 0 code hc
    | false =>
      by_cases h3 : maxReconnectFailures ≤ c + 1
      · rw [show runAttempts c (false :: rest) = some 1 by
          simp [runAttempts, resubscribeStep, h3]] at hc
        exact (Option.some.injEq 1 code ▸ hc).symm
      · rw [show runAttempts c (false :: rest) = runAttempts (c + 1) rest by
          simp [runAttempts, resubscribeStep, h3]] at hc
        exact ih (c + 1) code hc

/-- Claim C6: a successful resubscription resets the consecutive failure
counter to 0; a failed one increments it and, while the new count is below
`max_reconnect_failures` (3), the supervisor does not terminate and remains
eligible to retry; the process exits, with the non-zero status 1, exactly
when three consecutive failures accumulate. -/
theorem watchdog_escalation_spec :
    (∀ c : Nat, resubscribeStep c true = (0, none)) ∧
    (∀ c : Nat, c + 1 < maxReconnectFailures → resubscribeStep c false = (c + 1, none)) ∧
    (∀ c : Nat, maxReconnectFailures ≤ c + 1 → resubscribeStep c false = (c + 1, some 1)) ∧
    (∀ l : List Bool, runAttempts 0 l = some 1 ↔ hasThreeConsecFalse l = true) ∧
    (∀ (l : List Bool) (code : Nat), runAttempts 0 l = some code → code ≠ 0) := by
  refine ⟨fun c => rfl, ?_, ?_, ?_, ?_⟩
  · intro c hlt
    simp [resubscribeStep, Nat.not_le.mpr hlt]
  · intro c hge
    simp [resubscribeStep, hge]
  · intro l
    have := runAttempts_error_iff l 0 (by norm_num)
    simpa using this
  · intro l code hc
    have := runAttempts_code_eq_one l 0 code hc
    omega

/-- Witness for C6: concrete failure/success sequences. -/
theorem watchdog_escalation_spec_witness :
    resubscribeStep 2 false = (3, some 1) ∧
    resubscribeStep 1 false = (2, none) ∧
    resubscribeStep 2 true = (0, none) ∧
    runAttempts 0 [false, false, false] = some 1 ∧
    ¬(runAttempts 0 [false, false, true, false, false] = some 1) :=
  ⟨watchdog_escalation_spec.2.2.1 2 (by decide),
    watchdog_escalation_spec.2.1 1 (by decide),
    watchdog_escalation_spec.1 2,
    (watchdog_escalation_spec.2.2.2.1 [false, false, false]).mpr (by decide),
    fun hco =>
      absurd ((watchdog_escalation_spec.2.2.2.1 [false, false, true, false, false]).mp hco)
        (by decide)⟩

/-- Claim C7: the heartbeat store starts with both timestamps unset, and each
`update_ws_heartbeat(now)` sets `lastMessageAt = now` and sets
`connectionStartAt = now` only if it is currently unset. -/
theorem heartbeat_record_spec :
    (initHeartbeat.lastMessageAt = none ∧ initHeartbeat.connectionStartAt = none) ∧
    (∀ (now : Timestamp) (s : HeartbeatState),
      (update_ws_heartbeat now s).lastMessageAt = some now) ∧
    (∀ (now : Timestamp) (s : HeartbeatState), s.connectionStartAt = none →
      (update_ws_heartbeat now s).connectionStartAt = some now) ∧
    (∀ (now t : Timestamp) (s : HeartbeatState), s.connectionStartAt = some t →
      (update_ws_heartbeat now s).connectionStartAt = some t) := by
  refine ⟨⟨rfl, rfl⟩, fun now s => rfl, ?_, ?_⟩
  · intro now s hs
    simp [update_ws_heartbeat, hs]
  · intro now t s hs
    simp [update_ws_heartbeat, hs]

/-- Witness for C7: two recorded heartbeats; the second leaves the connection
start time at the first heartbeat's value. -/
theorem heartbeat_record_spec_witness :
    (update_ws_heartbeat 5 initHeartbeat).connectionStartAt = some 5 ∧
    (update_ws_heartbeat 9 (update_ws_heartbeat 5 initHeartbeat)).connectionStartAt = some 5 ∧
    (update_ws_heartbeat 9 (update_ws_heartbeat 5 initHeartbeat)).lastMessageAt = some 9 :=
  ⟨heartbeat_record_spec.2.2.1 5 initHeartbeat rfl,
    heartbeat_record_spec.2.2.2 9 5 (update_ws_heartbeat 5 initHeartbeat) rfl,
    heartbeat_record_spec.2.1 9 (update_ws_heartbeat 5 initHeartbeat)⟩

/-- Claim C9 (amended): the decision step on an analysis whose text starts
with `NOTHING TO REPORT` (the code's Nothing gate) returns `dispatch = false`
and leaves every field of the history exactly unchanged, for every prior
state. -/
theorem nothing_no_mutation_amended
    (analysis : String) (now : Timestamp) (cam : String) (night : Bool)
    (orc : Except Unit String) (so : Bool) (h : PolicyHistory)
    (hgate : pyStartsWith analysis ("NOTHING TO REPORT") = true) :
    notifyDecision analysis now cam night orc so h = (⟨false, none, false⟩, h) :=
  notifyDecision_gate analysis now cam night orc so h (codeBranch_eq_gate analysis hgate)

/-- Witness for C9: the gate returns with a fully populated history
unchanged. -/
theorem nothing_no_mutation_amended_witness :
    notifyDecision ("NOTHING TO REPORT\nall quiet") 100 ("c") false (Except.error ()) true
        ⟨some 1, some 2, [(("c"), ⟨("x"), 3⟩)]⟩
      = (⟨false, none, false⟩, ⟨some 1, some 2, [(("c"), ⟨("x"), 3⟩)]⟩) :=
  nothing_no_mutation_amended ("NOTHING TO REPORT\nall quiet") 100 ("c") false
    (Except.error ()) true ⟨some 1, some 2, [(("c"), ⟨("x"), 3⟩)]⟩ (by decide)

/-- Counterexample to C9 as stated: `HELLO` matches neither prefix, so the
spec's classifier gives it kind Nothing, yet the decision step dispatches it
on the default branch with priority −2 and sets `lastNotificationAt`. -/
theorem nothing_kind_mutation_cex :
    (specClassify ("HELLO\nhi")).1 = SpecKind.nothingKind ∧
    notifyDecision ("HELLO\nhi") 100 ("c") false (Except.error ()) true ⟨none, none, []⟩
      = (⟨true, some (-2), true⟩, ⟨none, some 100, []⟩) := by
  decide

theorem dd_hist_sendOk (p : Int) (fl msg : String) (now : Timestamp) (cam : String)
    (orc : Except Unit String) (s1 s2 : Bool) (h : PolicyHistory) :
    (dedupeDispatch p fl msg now cam orc s1 h).2 = (dedupeDispatch p fl msg now cam orc s2 h).2 := by
  unfold dedupeDispatch
  split <;> rfl

theorem dd_dispatch_mutations (p : Int) (fl msg : String) (now : Timestamp) (cam : String)
    (orc : Except Unit String) (so : Bool) (h : PolicyHistory)
    (hd : (dedupeDispatch p fl msg now cam orc so h).1.dispatch = true) :
    (dedupeDispatch p fl msg now cam orc so h).2.lastNotificationAt = some now ∧
    (is_person_event fl = true →
      lookupSighting (dedupeDispatch p fl msg now cam orc so h).2.personSightings cam
        = some ⟨msg, now⟩) := by
  cases hs : dedupeSuppressed fl msg now cam orc h
  · rw [dd_eq_dispatch p fl msg now cam orc so h hs]
    refine ⟨rfl, ?_⟩
    intro hp
    simp only [hp, if_true]
    exact lookupSighting_insert_self h.personSightings cam ⟨msg, now⟩
  · rw [dd_eq_suppressed p fl msg now cam orc so h hs] at hd
    simp at hd

theorem nd_hist_sendOk (analysis : String) (now : Timestamp) (cam : String) (night : Bool)
    (orc : Except Unit String) (s1 s2 : Bool) (h : PolicyHistory) :
    (notifyDecision analysis now cam night orc s1 h).2
      = (notifyDecision analysis now cam night orc s2 h).2 := by
  unfold notifyDecision
  cases codeBranch analysis with
  | gateSkip => rfl
  | alarm =>
    cases h.lastAlarmAt with
    | none => exact dd_hist_sendOk _ _ _ _ _ _ s1 s2 _
    | some t =>
      by_cases hlt : now - t < 60
      · simp only [if_pos hlt]
        exact dd_hist_sendOk _ _ _ _ _ _ s1 s2 _
      · simp only [if_neg hlt]
        exact dd_hist_sendOk _ _ _ _ _ _ s1 s2 _
  | observation =>
    cases h.lastNotificationAt with
    | none => exact dd_hist_sendOk _ _ _ _ _ _ s1 s2 _
    | some t =>
      by_cases hlt : now - t < 10
      · simp only [if_pos hlt]
      · simp only [if_neg hlt]
        exact dd_hist_sendOk _ _ _ _ _ _ s1 s2 _
  | fallback => exact dd_hist_sendOk _ _ _ _ _ _ s1 s2 _

theorem nd_dispatch_mutations (analysis : String) (now : Timestamp) (cam : String)
    (night : Bool) (orc : Except Unit String) (so : Bool) (h : PolicyHistory)
    (hd : (notifyDecision analysis now cam night orc so h).1.dispatch = true) :
    (notifyDecision analysis now cam night orc so h).2.lastNotificationAt = some now ∧
    (is_person_event (firstLineOf analysis) = true →
      lookupSighting (notifyDecision analysis now cam night orc so h).2.personSightings cam
        = some ⟨messageOf analysis, now⟩) := by
  revert hd
  unfold notifyDecision
  cases codeBranch analysis with
  | gateSkip =>
    intro hd
    simp at hd
  | alarm =>
    cases h.lastAlarmAt with
    | none => exact dd_dispatch_mutations _ _ _ _ _ _ _ _
    | some t =>
      by_cases hlt : now - t < 60
      · simp only [if_pos hlt]
        exact dd_dispatch_mutations _ _ _ _ _ _ _ _
      · simp only [if_neg hlt]
        exact dd_dispatch_mutations _ _ _ _ _ _ _ _
  | observation =>
    cases h.lastNotificationAt with
    | none => exact dd_dispatch_mutations _ _ _ _ _ _ _ _
    | some t =>
      by_cases hlt : now - t < 10
      · simp only [if_pos hlt]
        intro hd
        simp at hd
      · simp only [if_neg hlt]
        exact dd_dispatch_mutations _ _ _ _ _ _ _ _
  | fallback => exact dd_dispatch_mutations _ _ _ _ _ _ _ _

/-- Claim C10: when an event reaches the dispatch step, the history
mutations do not depend on the delivery outcome: the resulting history is
identical for any two delivery results, `lastNotificationAt` is set to `now`,
and for a person event the camera's sighting slot is updated; and
`send_notification` returns false on missing credentials or a missing
attachment file. -/
theorem dispatch_mutation_independent
    (analysis : String) (now : Timestamp) (cam : String) (night : Bool)
    (orc : Except Unit String) (s1 s2 : Bool) (h : PolicyHistory) :
    ((notifyDecision analysis now cam night orc s1 h).2
      = (notifyDecision analysis now cam night orc s2 h).2) ∧
    ((notifyDecision analysis now cam night orc s1 h).1.dispatch = true →
      ((notifyDecision analysis now cam night orc s1 h).2.lastNotificationAt = some now ∧
       (is_person_event (firstLineOf analysis) = true →
         lookupSighting (notifyDecision analysis now cam night orc s1 h).2.personSightings cam
           = some ⟨messageOf analysis, now⟩))) ∧
    (∀ (att : Option String) (isFile : Bool) (http : Except Unit Nat),
      send_notification none none att isFile http = false) ∧
    (∀ (tok usr : Option String) (att : String) (http : Except Unit Nat),
      ¬(att = String.mk []) → send_notification tok usr (some att) false http = false) := by
  refine ⟨nd_hist_sendOk analysis now cam night orc s1 s2 h,
    nd_dispatch_mutations analysis now cam night orc s1 h, fun att isFile http => rfl, ?_⟩
  intro tok usr att http hne
  have htr : truthyStr (some att) = true := by
    simp [truthyStr, bne_iff_ne, hne]
  simp [send_notification, htr, ite_self]

/-- Witness for C10: a dispatched person alarm with failed delivery mutates
the history exactly as with successful delivery. -/
theorem dispatch_mutation_independent_witness :
    ((notifyDecision ("ALARM PERSON\nperson") 50 ("cam") true (Except.error ()) false
        ⟨none, none, []⟩).2
      = (notifyDecision ("ALARM PERSON\nperson") 50 ("cam") true (Except.error ()) true
        ⟨none, none, []⟩).2) ∧
    (notifyDecision ("ALARM PERSON\nperson") 50 ("cam") true (Except.error ()) false
        ⟨none, none, []⟩).2.lastNotificationAt = some 50 ∧
    lookupSighting (notifyDecision ("ALARM PERSON\nperson") 50 ("cam") true (Except.error ())
        false ⟨none, none, []⟩).2.personSightings ("cam") = some ⟨("person"), 50⟩ ∧
    send_notification none none none false (Except.ok 200) = false :=
  have hmain := dispatch_mutation_independent ("ALARM PERSON\nperson") 50 ("cam") true
    (Except.error ()) false true ⟨none, none, []⟩
  ⟨hmain.1, (hmain.2.1 (by decide)).1, (hmain.2.1 (by decide)).2 (by decide),
    hmain.2.2.1 none false (Except.ok 200)⟩

theorem dd_sightings (p : Int) (fl msg : String) (now : Timestamp) (cam : String)
    (orc : Except Unit String) (so : Bool) (h : PolicyHistory) :
    (dedupeDispatch p fl msg now cam orc so h).2.personSightings =
      if (dedupeDispatch p fl msg now cam orc so h).1.dispatch && is_person_event fl then
        insertSighting h.personSightings cam ⟨msg, now⟩
      else h.personSightings := by
  cases hs : dedupeSuppressed fl msg now cam orc h
  · rw [dd_eq_dispatch p fl msg now cam orc so h hs]
    cases hp : is_person_event fl <;> simp [hp]
  · rw [dd_eq_suppressed p fl msg now cam orc so h hs]
    simp

theorem nd_sightings (analysis : String) (now : Timestamp) (cam : String) (night : Bool)
    (orc : Except Unit String) (so : Bool) (h : PolicyHistory) :
    (notifyDecision analysis now cam night orc so h).2.personSightings =
      if (notifyDecision analysis now cam night orc so h).1.dispatch &&
          is_person_event (firstLineOf analysis) then
        insertSighting h.personSightings cam ⟨messageOf analysis, now⟩
      else h.personSightings := by
  unfold notifyDecision
  cases codeBranch analysis with
  | gateSkip => simp
  | alarm =>
    cases h.lastAlarmAt with
    | none => exact dd_sightings _ _ _ _ _ _ _ _
    | some t =>
      by_cases hlt : now - t < 60
      · simp only [if_pos hlt]
        exact dd_sightings _ _ _ _ _ _ _ _
      · simp only [if_neg hlt]
        exact dd_sightings _ _ _ _ _ _ _ _
  | observation =>
    cases h.lastNotificationAt with
    | none => exact dd_sightings _ _ _ _ _ _ _ _
    | some t =>
      by_cases hlt : now - t < 10
      · simp only [if_pos hlt]
        simp
      · simp only [if_neg hlt]
        exact dd_sightings _ _ _ _ _ _ _ _
  | fallback => exact dd_sightings _ _ _ _ _ _ _ _

theorem ndEv_sightings (e : Event) (h : PolicyHistory) :
    (notifyDecisionEv e h).2.personSightings =
      if (notifyDecisionEv e h).1.dispatch && is_person_event (firstLineOf e.analysis) then
        insertSighting h.personSightings e.camera ⟨messageOf e.analysis, e.time⟩
      else h.personSightings :=
  nd_sightings e.analysis e.time e.camera e.night e.cmpOracle e.sendOk h

theorem ndEv_keys_nodup (e : Event) (h : PolicyHistory)
    (hm : (sightingKeys h.personSightings).Nodup) :
    (sightingKeys (notifyDecisionEv e h).2.personSightings).Nodup := by
  rw [ndEv_sightings]
  split
  · exact nodup_sightingKeys_insert _ _ _ hm
  · exact hm

/-- Claim C8 (amended): after any sequence of decision steps, the sightings
map has at most one entry per camera (no duplicate keys), and the entry for
a camera is the description and timestamp of the most recent event on that
camera whose decision was `dispatch = true` and whose uppercased stripped
first line starts with `ALARM PERSON` or `OBSERVATION PERSON` (the code's
person test), falling back to the initial entry when the trace dispatched
none; events that were suppressed, or fail that test, never overwrite it. -/
theorem sightings_trace_invariant (evs : List Event) : ∀ h0 : PolicyHistory,
    (sightingKeys h0.personSightings).Nodup →
    ((sightingKeys (runEvents h0 evs).personSightings).Nodup ∧
     ∀ cam : String, lookupSighting (runEvents h0 evs).personSightings cam =
       (match lastFor cam (dispatchedPersonLog h0 evs) with
        | some s => some s
        | none => lookupSighting h0.personSightings cam)) := by
  induction evs with
  | nil =>
    intro h0 hm
    exact ⟨hm, fun cam => rfl⟩
  | cons e rest ih =>
    intro h0 hm
    have hm1 : (sightingKeys (notifyDecisionEv e h0).2.personSightings).Nodup :=
      ndEv_keys_nodup e h0 hm
    obtain ⟨hn, hlook⟩ := ih (notifyDecisionEv e h0).2 hm1
    refine ⟨hn, ?_⟩
    intro cam
    rw [show runEvents h0 (e :: rest) = runEvents (notifyDecisionEv e h0).2 rest from rfl,
      hlook cam,
      show dispatchedPersonLog h0 (e :: rest) =
        (if (notifyDecisionEv e h0).1.dispatch && is_person_event (firstLineOf e.analysis) then
          [(e.camera, Sighting.mk (messageOf e.analysis) e.time)]
        else []) ++ dispatchedPersonLog (notifyDecisionEv e h0).2 rest from rfl]
    by_cases hw : ((notifyDecisionEv e h0).1.dispatch &&
        is_person_event (firstLineOf e.analysis)) = true
    · rw [if_pos hw, List.singleton_append]
      have hs1 : (notifyDecisionEv e h0).2.personSightings
          = insertSighting h0.personSightings e.camera ⟨messageOf e.analysis, e.time⟩ := by
        rw [ndEv_sightings, if_pos hw]
      cases hl1 : lastFor cam (dispatchedPersonLog (notifyDecisionEv e h0).2 rest) with
      | some r => simp [lastFor, hl1]
      | none =>
        simp only [lastFor, hl1]
        rw [hs1]
        by_cases hc : e.camera = cam
        · subst hc
          simp only [if_pos rfl]
          exact lookupSighting_insert_self h0.personSightings e.camera _
        · simp only [if_neg hc]
          exact lookupSighting_insert_other h0.personSightings e.camera cam _
            (fun hq => hc hq.symm)
    · rw [if_neg hw, List.nil_append]
      have hs1 : (notifyDecisionEv e h0).2.personSightings = h0.personSightings := by
        rw [ndEv_sightings, if_neg hw]
      rw [hs1]

/-- Witness for C8: a single dispatched person observation leaves exactly its
description and timestamp in the camera's slot, with no duplicate keys. -/
theorem sightings_trace_invariant_witness :
    lookupSighting (runEvents ⟨none, none, []⟩
        [⟨("OBSERVATION PERSON\nblue jacket"), 100, ("cam1"), false, Except.error (), true⟩]
      ).personSightings ("cam1") = some ⟨("blue jacket"), 100⟩ ∧
    (sightingKeys (runEvents ⟨none, none, []⟩
        [⟨("OBSERVATION PERSON\nblue jacket"), 100, ("cam1"), false, Except.error (), true⟩]
      ).personSightings).Nodup :=
  have hmain := sightings_trace_invariant
    [⟨("OBSERVATION PERSON\nblue jacket"), 100, ("cam1"), false, Except.error (), true⟩]
    ⟨none, none, []⟩ (by simp [sightingKeys])
  ⟨(hmain.2 ("cam1")).trans (by decide), hmain.1⟩

/-- Counterexample to C8 as stated: `ALARM  PERSON` (two spaces) has subject
type `PERSON` per the spec's whitespace tokenization, so it is a person
event in the claim's sense; starting from an empty history it is dispatched,
so the claim says the camera's entry afterwards equals its description and
timestamp; the code's `is_person_event` single-space prefix test fails on
it, so `personSightings` is never written and the entry stays absent. -/
theorem sightings_person_event_cex :
    specSubjectType ("ALARM  PERSON\nred coat") = some ("PERSON") ∧
    (notifyDecisionEv ⟨("ALARM  PERSON\nred coat"), 100, ("cam1"), false, Except.error (), true⟩
        ⟨none, none, []⟩).1.dispatch = true ∧
    lookupSighting (runEvents ⟨none, none, []⟩
        [⟨("ALARM  PERSON\nred coat"), 100, ("cam1"), false, Except.error (), true⟩]
      ).personSightings ("cam1") = none := by
  decide
